/-
  Verification of the sitepanda-desktop ingestion/notification pipeline and
  audit orchestrator, as a shallow embedding of the Python modules
  `modules/data_fetcher.py`, `modules/database.py`, `modules/webhook_manager.py`
  and `modules/seo_audit.py`.

  Loosely-typed Python dict values are modelled by `PyVal`; the SQLite store is
  modelled by explicit record lists with the insert/replace/update semantics of
  the SQL statements the code issues; `requests.post` outcomes and external
  provider calls are modelled by oracle values supplied per invocation.
-/
import Mathlib

namespace SitePanda

/-! ## Python value model

`PyVal` models the loosely-typed values that appear in provider payload
dicts: `None`, strings, and nested dicts.  Truthiness follows Python:
`None` is falsy, `""` is falsy, an empty dict is falsy. -/

inductive PyVal where
  | vnone
  | vstr (s : String)
  | varr (xs : List PyVal)
  | vdict (entries : List (String × PyVal))

def PyVal.truthy : PyVal → Bool
  | .vnone => false
  | .vstr s => s ≠ ""
  | .varr xs => !xs.isEmpty
  | .vdict es => !es.isEmpty

/-- Python `str(v)` as used in f-string interpolation, for the values the
extractor can feed it (strings render as themselves, `None` as `"None"`,
dicts by a structural placeholder). -/
def PyVal.pyStr : PyVal → String
  | .vnone => "None"
  | .vstr s => s
  | .varr _ => "list"
  | .vdict _ => "dict"

/-- `k in d` / `d[k]` on a Python dict: the value of key `k` when present.
`some .vnone` means the key is present with value `None`; `none` means the
key is absent. -/
def getItem (d : List (String × PyVal)) (k : String) : Option PyVal :=
  (d.find? (fun p => p.1 == k)).map (fun p => p.2)

/-- Python `d.get(k, default)`. -/
def dictGet (d : List (String × PyVal)) (k : String) (default : PyVal) : PyVal :=
  (getItem d k).getD default

/-- Python `a or b`. -/
def pyOr (a b : PyVal) : PyVal := if a.truthy then a else b

/-- View a `PyVal` as a dict's entry list (the code only applies this to
values that are dicts). -/
def asEntries : PyVal → List (String × PyVal)
  | .vdict es => es
  | _ => []

/-- The Python loop `for key in keys: if key in d: return d[key]`:
the value of the first *present* candidate key, even when that value is
`None`; `none` when no candidate key is present at all. -/
def firstPresent (d : List (String × PyVal)) (keys : List String) : Option PyVal :=
  keys.findSome? (fun k => getItem d k)

/-! ## Normalizer field extraction (`data_fetcher.py`)

`extractEmail` and `extractName` embed `DataFetcher._extract_email` and
`DataFetcher._extract_name` line by line.  A submission is the provider's
dict; its `fields`/`data` keys hold the per-field dict. -/

/-- `fields = submission.get('fields', {}) or submission.get('data', {})`. -/
def submissionFields (submission : List (String × PyVal)) : List (String × PyVal) :=
  asEntries (pyOr (dictGet submission "fields" (.vdict []))
                  (dictGet submission "data" (.vdict [])))

def emailFieldKeys : List String := ["email", "Email", "e-mail", "E-mail", "EMAIL"]
def emailTopKeys : List String := ["email", "submitter_email", "user_email"]

/-- `DataFetcher._extract_email`. -/
def extractEmail (submission : List (String × PyVal)) : PyVal :=
  let fields := submissionFields submission
  match firstPresent fields emailFieldKeys with
  | some v => v
  | none =>
    match firstPresent submission emailTopKeys with
    | some v => v
    | none => .vnone

def nameFieldKeys : List String := ["name", "Name", "full_name", "Full Name", "NAME"]
def nameTopKeys : List String := ["name", "submitter_name", "user_name"]

/-- `DataFetcher._extract_name`. -/
def extractName (submission : List (String × PyVal)) : PyVal :=
  let fields := submissionFields submission
  match firstPresent fields nameFieldKeys with
  | some v => v
  | none =>
    let first := pyOr (dictGet fields "first_name" .vnone) (dictGet fields "First Name" .vnone)
    let last := pyOr (dictGet fields "last_name" .vnone) (dictGet fields "Last Name" .vnone)
    if first.truthy && last.truthy then
      .vstr (first.pyStr ++ " " ++ last.pyStr)
    else if first.truthy then
      first
    else
      match firstPresent submission nameTopKeys with
      | some v => v
      | none => .vnone

/-- The extraction rule as the spec words it (`Modelled from the spec:` the
spec's candidate-key rule, for comparison with `extractEmail`): scan the
ordered candidate list and take the first key that is present *with a
non-null value*; a key present with a null value is skipped. -/
def firstPresentNonNull (d : List (String × PyVal)) (keys : List String) : Option PyVal :=
  keys.findSome? (fun k =>
    match getItem d k with
    | some .vnone => none
    | some v => some v
    | none => none)

/-- Email extraction following the spec's words (first present *non-null*
candidate), to be compared with the code's `extractEmail`. -/
def specExtractEmail (submission : List (String × PyVal)) : PyVal :=
  let fields := submissionFields submission
  match firstPresentNonNull fields emailFieldKeys with
  | some v => v
  | none =>
    match firstPresentNonNull submission emailTopKeys with
    | some v => v
    | none => .vnone

/-! ## JSON serialization

`json.dumps` as applied by `database.py` before storing dict/list values in
TEXT columns; the stored blob's exact shape never matters to the claims,
only that serialization is a deterministic pure function of the value. -/

mutual

def jsonDumps : PyVal → String
  | .vnone => "null"
  | .vstr s => "\"" ++ s ++ "\""
  | .varr xs => "[" ++ jsonDumpsItems xs ++ "]"
  | .vdict es => "\x7b" ++ jsonDumpsEntries es ++ "\x7d"

def jsonDumpsItems : List PyVal → String
  | [] => ""
  | [x] => jsonDumps x
  | x :: rest => jsonDumps x ++ ", " ++ jsonDumpsItems rest

def jsonDumpsEntries : List (String × PyVal) → String
  | [] => ""
  | [(k, v)] => "\"" ++ k ++ "\": " ++ jsonDumps v
  | (k, v) :: rest => "\"" ++ k ++ "\": " ++ jsonDumps v ++ ", " ++ jsonDumpsEntries rest

end

/-! ## Persistent store (`database.py`)

The SQLite tables are modelled as record lists inside `DBState`; the
semantics of the exact SQL statements each method issues are written out:
`INSERT OR REPLACE` deletes the conflicting row (non-NULL unique key equal)
and appends a fresh row, plain `INSERT` appends with column defaults
(`webhook_sent`/`is_processed` default 0), `UPDATE ... SET webhook_sent = 1`
maps over the named table.  `datetime.now()` is modelled by a `now : Nat`
tick passed into every writing operation. -/

structure SiteRow where
  site_name : Option String
  site_title : Option String
  template_id : Option String
  site_domain : Option String
  is_published : Nat
  created_date : Option String
  last_published_date : Option String
  store_enabled : Nat
  blog_enabled : Nat
  metadata : String
  last_updated : Nat
  deriving Repr, DecidableEq

/-- The keys `insert_site` reads from its `site_data` dict; `none` models an
absent key (so `dict.get` yields the SQL NULL or the stated default). -/
structure SiteInput where
  site_name : Option String := none
  site_title : Option String := none
  template_id : Option String := none
  site_domain : Option String := none
  is_published : Option Nat := none
  created_date : Option String := none
  last_published_date : Option String := none
  store_enabled : Option Nat := none
  blog_enabled : Option Nat := none
  metadata : Option PyVal := none

structure FormSubRow where
  id : Nat
  site_name : Option String
  form_id : Option String
  form_title : Option String
  submission_date : Option String
  form_data : String
  submitter_email : Option String
  submitter_name : Option String
  is_processed : Bool
  webhook_sent : Bool
  last_updated : Nat
  deriving Repr, DecidableEq

structure FormSubInput where
  site_name : Option String := none
  form_id : Option String := none
  form_title : Option String := none
  submission_date : Option String := none
  form_data : Option PyVal := none
  submitter_email : Option String := none
  submitter_name : Option String := none

structure OrderRow where
  id : Nat
  site_name : Option String
  order_id : Option String
  order_number : Option String
  order_date : Option String
  customer_name : Option String
  customer_email : Option String
  total_amount : Option Int
  currency : Option String
  status : Option String
  items : String
  shipping_address : String
  billing_address : String
  is_processed : Bool
  webhook_sent : Bool
  last_updated : Nat
  deriving Repr, DecidableEq

structure OrderInput where
  site_name : Option String := none
  order_id : Option String := none
  order_number : Option String := none
  order_date : Option String := none
  customer_name : Option String := none
  customer_email : Option String := none
  total_amount : Option Int := none
  currency : Option String := none
  status : Option String := none
  items : Option PyVal := none
  shipping_address : Option PyVal := none
  billing_address : Option PyVal := none

structure ProductRow where
  id : Nat
  site_name : Option String
  product_id : Option String
  product_name : Option String
  description : Option String
  price : Option Int
  currency : Option String
  sku : Option String
  stock_quantity : Option Nat
  category : Option String
  images : String
  is_active : Nat
  last_updated : Nat
  deriving Repr, DecidableEq

structure ProductInput where
  site_name : Option String := none
  product_id : Option String := none
  product_name : Option String := none
  description : Option String := none
  price : Option Int := none
  currency : Option String := none
  sku : Option String := none
  stock_quantity : Option Nat := none
  category : Option String := none
  images : Option PyVal := none
  is_active : Option Nat := none

structure WebhookLogRow where
  id : Nat
  event_type : String
  webhook_url : String
  payload : String
  response_code : Nat
  response_body : String
  success : Bool
  timestamp : Nat
  deriving Repr, DecidableEq

structure DBState where
  sites : List SiteRow := []
  form_submissions : List FormSubRow := []
  ecommerce_orders : List OrderRow := []
  ecommerce_products : List ProductRow := []
  webhook_log : List WebhookLogRow := []
  next_form_id : Nat := 1
  next_order_id : Nat := 1
  next_product_id : Nat := 1
  next_log_id : Nat := 1
  deriving Repr, DecidableEq

/-- The row the `insert_site` statement writes for input `i` at time `now`,
with the code's `dict.get` defaults. -/
def siteRowOf (i : SiteInput) (now : Nat) : SiteRow :=
  { site_name := i.site_name
    site_title := i.site_title
    template_id := i.template_id
    site_domain := i.site_domain
    is_published := i.is_published.getD 0
    created_date := i.created_date
    last_published_date := i.last_published_date
    store_enabled := i.store_enabled.getD 0
    blog_enabled := i.blog_enabled.getD 0
    metadata := jsonDumps (i.metadata.getD (.vdict []))
    last_updated := now }

/-- `DatabaseManager.insert_site`: `INSERT OR REPLACE INTO sites`.  `sites`
has `site_name TEXT PRIMARY KEY`; the conflicting row (same non-NULL key) is
replaced, all columns written from the input with the code's defaults. -/
def insertSite (db : DBState) (i : SiteInput) (now : Nat) : DBState :=
  let keep := db.sites.filter (fun r =>
    !(r.site_name.isSome && r.site_name == i.site_name))
  { db with sites := keep ++ [siteRowOf i now] }

/-- `DatabaseManager.insert_form_submission`: plain `INSERT`; `is_processed`
and `webhook_sent` take their column default `0`, `id` is the fresh
autoincrement value. -/
def insertFormSubmission (db : DBState) (i : FormSubInput) (now : Nat) : DBState :=
  let row : FormSubRow :=
    { id := db.next_form_id
      site_name := i.site_name
      form_id := i.form_id
      form_title := i.form_title
      submission_date := i.submission_date
      form_data := jsonDumps (i.form_data.getD (.vdict []))
      submitter_email := i.submitter_email
      submitter_name := i.submitter_name
      is_processed := false
      webhook_sent := false
      last_updated := now }
  { db with form_submissions := db.form_submissions ++ [row],
            next_form_id := db.next_form_id + 1 }

/-- `DatabaseManager.insert_ecommerce_order`: `INSERT OR REPLACE` against the
`order_id TEXT UNIQUE` constraint.  The column list omits `is_processed` and
`webhook_sent`, so the replacement row takes their defaults (`0`): a re-upsert
of a delivered order silently resets its delivered flag.  SQLite's UNIQUE
treats NULLs as distinct, so a NULL `order_id` never conflicts. -/
def insertEcommerceOrder (db : DBState) (i : OrderInput) (now : Nat) : DBState :=
  let row : OrderRow :=
    { id := db.next_order_id
      site_name := i.site_name
      order_id := i.order_id
      order_number := i.order_number
      order_date := i.order_date
      customer_name := i.customer_name
      customer_email := i.customer_email
      total_amount := i.total_amount
      currency := i.currency
      status := i.status
      items := jsonDumps (i.items.getD (.varr []))
      shipping_address := jsonDumps (i.shipping_address.getD (.vdict []))
      billing_address := jsonDumps (i.billing_address.getD (.vdict []))
      is_processed := false
      webhook_sent := false
      last_updated := now }
  let keep := db.ecommerce_orders.filter (fun r =>
    !(r.order_id.isSome && r.order_id == i.order_id))
  { db with ecommerce_orders := keep ++ [row],
            next_order_id := db.next_order_id + 1 }

/-- `DatabaseManager.insert_product`: `INSERT OR REPLACE` against
`UNIQUE(site_name, product_id)`; a conflict requires both key columns
non-NULL and equal. -/
def insertProduct (db : DBState) (i : ProductInput) (now : Nat) : DBState :=
  let row : ProductRow :=
    { id := db.next_product_id
      site_name := i.site_name
      product_id := i.product_id
      product_name := i.product_name
      description := i.description
      price := i.price
      currency := i.currency
      sku := i.sku
      stock_quantity := i.stock_quantity
      category := i.category
      images := jsonDumps (i.images.getD (.varr []))
      is_active := i.is_active.getD 1
      last_updated := now }
  let keep := db.ecommerce_products.filter (fun r =>
    !(r.site_name.isSome && r.site_name == i.site_name &&
      r.product_id.isSome && r.product_id == i.product_id))
  { db with ecommerce_products := keep ++ [row],
            next_product_id := db.next_product_id + 1 }

/-- `DatabaseManager.mark_webhook_sent`: `UPDATE {table} SET webhook_sent = 1
WHERE id = ?`.  A table name other than the two flagged tables makes the SQL
fail, which the method catches, leaving the store unchanged. -/
def markWebhookSent (db : DBState) (table : String) (record_id : Nat) : DBState :=
  if table = "form_submissions" then
    { db with form_submissions := db.form_submissions.map (fun r =>
        if r.id = record_id then { r with webhook_sent := true } else r) }
  else if table = "ecommerce_orders" then
    { db with ecommerce_orders := db.ecommerce_orders.map (fun r =>
        if r.id = record_id then { r with webhook_sent := true } else r) }
  else
    db

/-- `DatabaseManager.log_webhook`: append-only insert into `webhook_log`. -/
def logWebhook (db : DBState) (event_type webhook_url : String) (payload : PyVal)
    (response_code : Nat) (response_body : String) (success : Bool) (now : Nat) : DBState :=
  let row : WebhookLogRow :=
    { id := db.next_log_id
      event_type := event_type
      webhook_url := webhook_url
      payload := jsonDumps payload
      response_code := response_code
      response_body := response_body
      success := success
      timestamp := now }
  { db with webhook_log := db.webhook_log ++ [row],
            next_log_id := db.next_log_id + 1 }

/-! ## Store queries (`database.py`) -/

/-- Insertion step of the sort modelling `ORDER BY`: `le a b` means `a` may
appear before `b` in the output. -/
def insertSorted (le : α → α → Bool) (a : α) : List α → List α
  | [] => [a]
  | b :: bs => if le a b then a :: b :: bs else b :: insertSorted le a bs

/-- Sort modelling SQL `ORDER BY`. -/
def sortRows (le : α → α → Bool) : List α → List α
  | [] => []
  | a :: as => insertSorted le a (sortRows le as)

/-- SQL `ORDER BY col DESC` comparison on a nullable TEXT column: larger
values first; SQLite orders NULLs after all values under DESC. -/
def dateDescLe (a b : Option String) : Bool :=
  match a, b with
  | none, none => true
  | none, some _ => false
  | some _, none => true
  | some x, some y => decide (y ≤ x)

/-- `DatabaseManager.get_form_submissions(site_name, unprocessed_only)`:
optional `site_name = ?` filter (skipped for a falsy argument, per
`if site_name:`), optional `webhook_sent = 0` filter, then
`ORDER BY submission_date DESC`. -/
def getFormSubmissions (db : DBState) (site_name : Option String)
    (unprocessed_only : Bool) : List FormSubRow :=
  let rows := db.form_submissions
  let rows := match site_name with
    | some s => if s ≠ "" then rows.filter (fun r => r.site_name == some s) else rows
    | none => rows
  let rows := if unprocessed_only then rows.filter (fun r => !r.webhook_sent) else rows
  sortRows (fun a b => dateDescLe a.submission_date b.submission_date) rows

/-- `DatabaseManager.get_ecommerce_orders(site_name, unprocessed_only)`:
same shape as the submissions query, ordered by `order_date DESC`. -/
def getEcommerceOrders (db : DBState) (site_name : Option String)
    (unprocessed_only : Bool) : List OrderRow :=
  let rows := db.ecommerce_orders
  let rows := match site_name with
    | some s => if s ≠ "" then rows.filter (fun r => r.site_name == some s) else rows
    | none => rows
  let rows := if unprocessed_only then rows.filter (fun r => !r.webhook_sent) else rows
  sortRows (fun a b => dateDescLe a.order_date b.order_date) rows

/-! ## Notifier (`webhook_manager.py`) -/

/-- Outcome of the single `requests.post` call a delivery attempt makes. -/
inductive HttpOutcome where
  | resp (status_code : Nat) (text : String)
  | timeout
  | transportError (msg : String)
  deriving Repr, DecidableEq

/-- `self.webhooks.get(event_type)` on the webhook-URL config dict. -/
def lookupConfig (webhooks : List (String × String)) (event_type : String) : Option String :=
  (webhooks.find? (fun p => p.1 == event_type)).map (fun p => p.2)

/-- The envelope `{event_type, timestamp, data}` built before posting. -/
def fullPayload (event_type : String) (now : Nat) (payload : PyVal) : PyVal :=
  .vdict [("event_type", .vstr event_type),
          ("timestamp", .vstr (toString now)),
          ("data", payload)]

/-- `WebhookManager.send_webhook`: destination lookup (a missing or falsy URL
is a no-op returning `False` with no log entry), one POST whose outcome is
supplied by the `outcome` oracle, success test `status_code in
[200, 201, 202, 204]`, and exactly one `log_webhook` call on every path that
made the POST (body truncated to 500 characters on an HTTP response, code `0`
with a fixed or error-message body on timeout/transport error). -/
def sendWebhook (webhooks : List (String × String)) (event_type : String)
    (payload : PyVal) (outcome : HttpOutcome) (now : Nat) (db : DBState) :
    Bool × DBState :=
  match lookupConfig webhooks event_type with
  | none => (false, db)
  | some url =>
    if url = "" then (false, db)
    else
      let fp := fullPayload event_type now payload
      match outcome with
      | .resp code text =>
        let success := [200, 201, 202, 204].contains code
        let db := logWebhook db event_type url fp code (text.take 500) success now
        (success, db)
      | .timeout =>
        (false, logWebhook db event_type url fp 0 "Request timeout" false now)
      | .transportError msg =>
        (false, logWebhook db event_type url fp 0 msg false now)

/-! ## Store operations as a single step type

`StoreOp` enumerates the write operations `DatabaseManager` exposes, so that
invariants quantifying over "every store operation" range over one type. -/

inductive StoreOp where
  | opInsertSite (i : SiteInput) (now : Nat)
  | opInsertFormSubmission (i : FormSubInput) (now : Nat)
  | opInsertEcommerceOrder (i : OrderInput) (now : Nat)
  | opInsertProduct (i : ProductInput) (now : Nat)
  | opMarkWebhookSent (table : String) (record_id : Nat)
  | opLogWebhook (event_type webhook_url : String) (payload : PyVal)
      (response_code : Nat) (response_body : String) (success : Bool) (now : Nat)

def applyOp (db : DBState) : StoreOp → DBState
  | .opInsertSite i now => insertSite db i now
  | .opInsertFormSubmission i now => insertFormSubmission db i now
  | .opInsertEcommerceOrder i now => insertEcommerceOrder db i now
  | .opInsertProduct i now => insertProduct db i now
  | .opMarkWebhookSent table rid => markWebhookSent db table rid
  | .opLogWebhook e u p c b s now => logWebhook db e u p c b s now

/-! ## Audit orchestrator (`seo_audit.py`)

Each external provider call is an oracle value `Except String Payload`:
`.ok` is the payload the call would return, `.error` the message of the
exception it would raise.  Payloads are kept as the opaque provider JSON
blob (`String`): no claim inspects payload contents, only which keys of the
raw-payload map and which insight sections end up populated, and that logic
(`_fetch_dataforseo_data`, `_analyze_data`, `run_audit`) is embedded
statement by statement. -/

/-- Oracle for the six DataForSEO client calls `_fetch_dataforseo_data`
makes.  Note the backlinks try-block covers two calls. -/
structure DfsOracle where
  onPageSummary : Except String String
  organicCompetitors : Except String String
  backlinksSummary : Except String String
  backlinksReferringDomains : Except String String
  rankedKeywords : Except String String
  domainMetrics : Except String String

/-- The raw-payload dict built by `_fetch_dataforseo_data`; each field is a
key that may or may not be set. -/
structure FetchData where
  crawl : Option String := none
  crawl_error : Option String := none
  competitors : Option String := none
  competitors_error : Option String := none
  backlinks : Option String := none
  referring_domains : Option String := none
  backlinks_error : Option String := none
  keywords : Option String := none
  keywords_error : Option String := none
  domain_metrics : Option String := none
  domain_metrics_error : Option String := none
  deriving Repr, DecidableEq

/-- `SEOAuditor._fetch_dataforseo_data`: five independent try/except blocks;
the backlinks block assigns `data["backlinks"]` and then
`data["referring_domains"]`, so a failure of the second call leaves the
already-assigned `backlinks` key in place *and* sets `backlinks_error`. -/
def fetchDataforseoData (o : DfsOracle) : FetchData :=
  let d : FetchData := {}
  let d := match o.onPageSummary with
    | .ok v => { d with crawl := some v }
    | .error e => { d with crawl_error := some e }
  let d := match o.organicCompetitors with
    | .ok v => { d with competitors := some v }
    | .error e => { d with competitors_error := some e }
  let d := match o.backlinksSummary with
    | .ok v =>
      match o.backlinksReferringDomains with
      | .ok w => { d with backlinks := some v, referring_domains := some w }
      | .error e => { d with backlinks := some v, backlinks_error := some e }
    | .error e => { d with backlinks_error := some e }
  let d := match o.rankedKeywords with
    | .ok v => { d with keywords := some v }
    | .error e => { d with keywords_error := some e }
  let d := match o.domainMetrics with
    | .ok v => { d with domain_metrics := some v }
    | .error e => { d with domain_metrics_error := some e }
  d

structure Ga4Oracle where
  pageAnalytics : Except String String
  landingPages : Except String String
  deviceAnalytics : Except String String
  geoAnalytics : Except String String
  trafficSources : Except String String

structure Ga4Data where
  pages : Option String := none
  landing_pages : Option String := none
  devices : Option String := none
  countries : Option String := none
  traffic_sources : Option String := none
  error : Option String := none
  deriving Repr, DecidableEq

/-- `SEOAuditor._fetch_ga4_data`: one try block over five sequential
assignments; the first raising call stops the sequence and sets `error`,
keeping the keys already assigned. -/
def fetchGa4Data (o : Ga4Oracle) : Ga4Data :=
  match o.pageAnalytics with
  | .error e => { error := some e }
  | .ok p =>
    match o.landingPages with
    | .error e => { pages := some p, error := some e }
    | .ok lp =>
      match o.deviceAnalytics with
      | .error e => { pages := some p, landing_pages := some lp, error := some e }
      | .ok d =>
        match o.geoAnalytics with
        | .error e =>
          { pages := some p, landing_pages := some lp, devices := some d, error := some e }
        | .ok g =>
          match o.trafficSources with
          | .error e =>
            { pages := some p, landing_pages := some lp, devices := some d,
              countries := some g, error := some e }
          | .ok t =>
            { pages := some p, landing_pages := some lp, devices := some d,
              countries := some g, traffic_sources := some t }

structure GscOracle where
  normalizeSiteUrl : Except String String
  pagesCall : Except String String
  queriesCall : Except String String
  countriesCall : Except String String
  devicesCall : Except String String

structure GscData where
  pages : Option String := none
  queries : Option String := none
  countries : Option String := none
  devices : Option String := none
  error : Option String := none
  deriving Repr, DecidableEq

/-- `SEOAuditor._fetch_gsc_data`: one try block over `normalize_site_url`
and four sequential assignments. -/
def fetchGscData (o : GscOracle) : GscData :=
  match o.normalizeSiteUrl with
  | .error e => { error := some e }
  | .ok _ =>
    match o.pagesCall with
    | .error e => { error := some e }
    | .ok p =>
      match o.queriesCall with
      | .error e => { pages := some p, error := some e }
      | .ok q =>
        match o.countriesCall with
        | .error e => { pages := some p, queries := some q, error := some e }
        | .ok c =>
          match o.devicesCall with
          | .error e =>
            { pages := some p, queries := some q, countries := some c, error := some e }
          | .ok d =>
            { pages := some p, queries := some q, countries := some c, devices := some d }

/-- A per-source summary section of the derived insights.  The claims only
ever ask whether a section is present, so the summary derivation
(`_analyze_crawl` etc., provider-specific field digging wrapped in
`try/except: pass`) is abstracted to the payload it derives from; which
sections are present is embedded exactly from `_analyze_data`. -/
structure SourceSummary where
  derived_from : String
  deriving Repr, DecidableEq

def analyzeCrawl (p : String) : SourceSummary := ⟨p⟩
def analyzeCompetitors (p : String) : SourceSummary := ⟨p⟩
def analyzeBacklinks (p : String) : SourceSummary := ⟨p⟩
def analyzeKeywords (p : String) : SourceSummary := ⟨p⟩
def analyzeGa4 (g : Ga4Data) : SourceSummary := ⟨g.pages.getD ""⟩
def analyzeGsc (g : GscData) : SourceSummary := ⟨g.pages.getD ""⟩

structure InsightsSummary where
  crawl : Option SourceSummary := none
  competitors : Option SourceSummary := none
  backlinks : Option SourceSummary := none
  keywords : Option SourceSummary := none
  ga4 : Option SourceSummary := none
  gsc : Option SourceSummary := none
  deriving Repr, DecidableEq

structure Insights where
  summary : InsightsSummary
  issues : List String
  opportunities : List String
  metrics : List (String × String)
  deriving Repr, DecidableEq

/-- `SEOAuditor._generate_issues`: placeholder returning the empty list. -/
def generateIssues (_crawl : FetchData) (_ga4 : Option Ga4Data)
    (_gsc : Option GscData) : List String := []

/-- `SEOAuditor._analyze_data`: a summary section is added exactly when the
corresponding data key is present (`if "crawl" in crawl_data:` …); the GA4
and GSC sections additionally require a truthy dict with a `pages` key. -/
def analyzeData (crawlData : FetchData) (ga4Data : Option Ga4Data)
    (gscData : Option GscData) : Insights :=
  { summary :=
      { crawl := crawlData.crawl.map analyzeCrawl
        competitors := crawlData.competitors.map analyzeCompetitors
        backlinks := crawlData.backlinks.map analyzeBacklinks
        keywords := crawlData.keywords.map analyzeKeywords
        ga4 := match ga4Data with
          | some g => if g.pages.isSome then some (analyzeGa4 g) else none
          | none => none
        gsc := match gscData with
          | some g => if g.pages.isSome then some (analyzeGsc g) else none
          | none => none }
    issues := generateIssues crawlData ga4Data gscData
    opportunities := []
    metrics := [] }

/-- One row of the `seo_audits` table. -/
structure AuditRecord where
  id : Nat
  domain : String
  status : String
  error_message : Option String := none
  started_at : Nat
  completed_at : Option Nat := none
  crawl_data : Option FetchData := none
  ga4_data : Option Ga4Data := none
  gsc_data : Option GscData := none
  insights : Option Insights := none
  deriving Repr, DecidableEq

/-- The audit store with a tick clock standing in for `datetime.now()`. -/
structure AuditDB where
  audits : List AuditRecord := []
  next_audit_id : Nat := 1
  clock : Nat := 0
  deriving Repr, DecidableEq

/-- `SEOAuditor._create_audit_record`: insert a row with status `"running"`
and `started_at` set, returning `lastrowid`. -/
def createAuditRecord (db : AuditDB) (domain : String) : Nat × AuditDB :=
  let row : AuditRecord :=
    { id := db.next_audit_id, domain := domain, status := "running",
      started_at := db.clock }
  (db.next_audit_id,
   { db with audits := db.audits ++ [row],
             next_audit_id := db.next_audit_id + 1,
             clock := db.clock + 1 })

/-- `SEOAuditor._save_audit_results`: one `UPDATE ... WHERE id = ?` writing
payloads and insights; the `persist` oracle says whether this store write
raises (the one uncaught exception site of the audit body). -/
def saveAuditResults (db : AuditDB) (audit_id : Nat) (insights : Insights)
    (crawlData : FetchData) (ga4Data : Option Ga4Data) (gscData : Option GscData)
    (persist : Except String Unit) : Except String AuditDB :=
  match persist with
  | .error e => .error e
  | .ok _ =>
    .ok { db with audits := db.audits.map (fun r =>
      if r.id = audit_id then
        { r with crawl_data := some crawlData, ga4_data := ga4Data,
                 gsc_data := gscData, insights := some insights }
      else r) }

/-- `SEOAuditor._update_audit_status`: sets `status` and `completed_at`; the
non-`"completed"` branch also writes `error_message`. -/
def updateAuditStatus (db : AuditDB) (audit_id : Nat) (status : String)
    (error : Option String) : AuditDB :=
  if status = "completed" then
    let audits := db.audits.map (fun r =>
      if r.id = audit_id then
        { r with status := status, completed_at := some db.clock }
      else r)
    { db with audits := audits, clock := db.clock + 1 }
  else
    let audits := db.audits.map (fun r =>
      if r.id = audit_id then
        { r with status := status, error_message := error,
                 completed_at := some db.clock }
      else r)
    { db with audits := audits, clock := db.clock + 1 }

/-- The dict `run_audit` returns on success. -/
structure RunResult where
  audit_id : Nat
  domain : String
  status : String
  insights : Insights
  timestamp : Nat
  deriving Repr, DecidableEq

/-- Oracle for one `run_audit` invocation: provider call outcomes plus
whether the results-persisting store write raises.  `ga4 = some _` models a
configured GA4 client together with a supplied property id; `gsc = some _`
a configured GSC client. -/
structure AuditOracle where
  dfs : DfsOracle
  ga4 : Option Ga4Oracle := none
  gsc : Option GscOracle := none
  persist : Except String Unit := .ok ()

/-- `SEOAuditor.run_audit`: create the `running` record first, fetch each
source through the catching fetch helpers, analyze, persist, finalize; an
uncaught exception flips the record to `failed` (recording the message and
`completed_at`) and is re-raised, modelled by the `.error` result. -/
def runAudit (db : AuditDB) (domain : String) (o : AuditOracle) :
    Except String RunResult × AuditDB :=
  let created := createAuditRecord db domain
  let audit_id := created.1
  let db := created.2
  let crawlData := fetchDataforseoData o.dfs
  let ga4Data := o.ga4.map fetchGa4Data
  let gscData := o.gsc.map fetchGscData
  let insights := analyzeData crawlData ga4Data gscData
  match saveAuditResults db audit_id insights crawlData ga4Data gscData o.persist with
  | .error e =>
    let db := updateAuditStatus db audit_id "failed" (some e)
    (.error e, db)
  | .ok db1 =>
    let db2 := updateAuditStatus db1 audit_id "completed" none
    (.ok { audit_id := audit_id, domain := domain, status := "completed",
           insights := insights, timestamp := db2.clock },
     { db2 with clock := db2.clock + 1 })

/-- `find?` view of the `seo_audits` table by id. -/
def findAudit (db : AuditDB) (audit_id : Nat) : Option AuditRecord :=
  db.audits.find? (fun r => r.id == audit_id)

/-! ## Helper lemmas -/

theorem mem_insertSorted {le : α → α → Bool} {a x : α} {l : List α} :
    x ∈ insertSorted le a l ↔ x = a ∨ x ∈ l := by
  induction l with
  | nil => simp [insertSorted]
  | cons b bs ih =>
    simp only [insertSorted]
    split
    · simp [List.mem_cons]
    · simp only [List.mem_cons, ih]
      tauto

theorem mem_sortRows {le : α → α → Bool} {x : α} {l : List α} :
    x ∈ sortRows le l ↔ x ∈ l := by
  induction l with
  | nil => simp [sortRows]
  | cons a as ih => simp [sortRows, mem_insertSorted, ih]

theorem findSome?_first {f : α → Option β} {l₁ : List α} {a : α} {l₂ : List α} {v : β}
    (h₁ : ∀ x ∈ l₁, f x = none) (h₂ : f a = some v) :
    (l₁ ++ a :: l₂).findSome? f = some v := by
  induction l₁ with
  | nil => simp [List.findSome?_cons, h₂]
  | cons y ys ih =>
    have hy : f y = none := h₁ y (List.mem_cons_self y ys)
    have hys : ∀ x ∈ ys, f x = none := fun x hx => h₁ x (List.mem_cons_of_mem y hx)
    simp [List.findSome?_cons, hy, ih hys]

/-! ## Claim theorems -/

/-- Concrete input refuting C6 as stated: the `email` candidate key is
present with a null value and a later candidate `Email` carries a non-null
value. -/
def emailCex : List (String × PyVal) :=
  [("fields", .vdict [("email", .vnone), ("Email", .vstr "a@b.com")])]

/-- C6 counterexample: the spec says extraction takes the first candidate
key *present with a non-null value* (which here is `Email`, giving
`"a@b.com"`), but `_extract_email` returns at the first *present* key and
yields the null stored under `email`. -/
theorem C6_counterexample :
    extractEmail emailCex = PyVal.vnone ∧
    specExtractEmail emailCex = PyVal.vstr "a@b.com" ∧
    PyVal.vnone ≠ PyVal.vstr "a@b.com" := by
  refine ⟨rfl, rfl, fun h => PyVal.noConfusion h⟩

/-- C6 (amended): for each logical field (email and name alike), extraction
scans the field's ordered candidate-key list and returns the value of the
first candidate key that is *present* — even when that value is null — and
never fails.  When no candidate key is present, the email extractor falls
back to the top-level candidates and then null; the name extractor first
falls back to combining truthy first+last-name fields (so absence of all
candidate keys does not always yield null), then to a truthy first name,
then to the top-level candidates, and only then to null. -/
theorem C6_extraction_first_present :
    (∀ (submission : List (String × PyVal)) (ks₁ ks₂ : List String) (k : String) (v : PyVal),
        emailFieldKeys = ks₁ ++ k :: ks₂ →
        (∀ k' ∈ ks₁, getItem (submissionFields submission) k' = none) →
        getItem (submissionFields submission) k = some v →
        extractEmail submission = v) ∧
    (∀ submission : List (String × PyVal),
        (∀ k ∈ emailFieldKeys, getItem (submissionFields submission) k = none) →
        (∀ k ∈ emailTopKeys, getItem submission k = none) →
        extractEmail submission = PyVal.vnone) ∧
    (∀ (submission : List (String × PyVal)) (ks₁ ks₂ : List String) (k : String) (v : PyVal),
        nameFieldKeys = ks₁ ++ k :: ks₂ →
        (∀ k' ∈ ks₁, getItem (submissionFields submission) k' = none) →
        getItem (submissionFields submission) k = some v →
        extractName submission = v) ∧
    (∀ submission : List (String × PyVal),
        (∀ k ∈ nameFieldKeys, getItem (submissionFields submission) k = none) →
        (pyOr (dictGet (submissionFields submission) "first_name" .vnone)
              (dictGet (submissionFields submission) "First Name" .vnone)).truthy = true →
        (pyOr (dictGet (submissionFields submission) "last_name" .vnone)
              (dictGet (submissionFields submission) "Last Name" .vnone)).truthy = true →
        extractName submission =
          .vstr ((pyOr (dictGet (submissionFields submission) "first_name" .vnone)
                    (dictGet (submissionFields submission) "First Name" .vnone)).pyStr
              ++ " " ++
              (pyOr (dictGet (submissionFields submission) "last_name" .vnone)
                    (dictGet (submissionFields submission) "Last Name" .vnone)).pyStr)) ∧
    (∀ submission : List (String × PyVal),
        (∀ k ∈ nameFieldKeys, getItem (submissionFields submission) k = none) →
        (pyOr (dictGet (submissionFields submission) "first_name" .vnone)
              (dictGet (submissionFields submission) "First Name" .vnone)).truthy = false →
        (∀ k ∈ nameTopKeys, getItem submission k = none) →
        extractName submission = PyVal.vnone) := by
  refine ⟨?_, ?_, ?_, ?_, ?_⟩
  · intro submission ks₁ ks₂ k v hsplit habsent hpresent
    have hfp : firstPresent (submissionFields submission) emailFieldKeys = some v := by
      rw [hsplit]
      exact findSome?_first habsent hpresent
    simp only [extractEmail, hfp]
  · intro submission hfields htop
    have h1 : firstPresent (submissionFields submission) emailFieldKeys = none :=
      List.findSome?_eq_none_iff.mpr hfields
    have h2 : firstPresent submission emailTopKeys = none :=
      List.findSome?_eq_none_iff.mpr htop
    simp only [extractEmail, h1, h2]
  · intro submission ks₁ ks₂ k v hsplit habsent hpresent
    have hfp : firstPresent (submissionFields submission) nameFieldKeys = some v := by
      rw [hsplit]
      exact findSome?_first habsent hpresent
    simp only [extractName, hfp]
  · intro submission hnone hf hl
    have h1 : firstPresent (submissionFields submission) nameFieldKeys = none :=
      List.findSome?_eq_none_iff.mpr hnone
    simp only [extractName, h1, hf, hl, Bool.and_self, if_true]
  · intro submission hnone hf htop
    have h1 : firstPresent (submissionFields submission) nameFieldKeys = none :=
      List.findSome?_eq_none_iff.mpr hnone
    have h2 : firstPresent submission nameTopKeys = none :=
      List.findSome?_eq_none_iff.mpr htop
    simp [extractName, h1, h2, hf]

/-- Input exercising the amended C6: `e-mail` is the first present
candidate. -/
def emailWitnessInput : List (String × PyVal) :=
  [("fields", .vdict [("e-mail", .vstr "w@x.com")])]

/-- Input exercising the amended C6 for names: `full_name` is the first
present candidate. -/
def fullNameWitnessInput : List (String × PyVal) :=
  [("fields", .vdict [("full_name", .vstr "Zed")])]

/-- Input exercising the amended C6's first+last fallback: no single-name
candidate key, truthy `first_name` and `last_name`. -/
def firstLastWitnessInput : List (String × PyVal) :=
  [("fields", .vdict [("first_name", .vstr "A"), ("last_name", .vstr "B")])]

/-- Witness for the amended C6 at concrete inputs: first-present scan for
both extractors, the name extractor's first+last combination, and the
all-absent null results. -/
theorem C6_extraction_first_present_witness :
    extractEmail emailWitnessInput = PyVal.vstr "w@x.com" ∧
    extractEmail [] = PyVal.vnone ∧
    extractName fullNameWitnessInput = PyVal.vstr "Zed" ∧
    extractName firstLastWitnessInput = PyVal.vstr "A B" ∧
    extractName [] = PyVal.vnone := by
  refine ⟨?_, ?_, ?_, ?_, ?_⟩
  · exact C6_extraction_first_present.1 emailWitnessInput ["email", "Email"]
      ["E-mail", "EMAIL"] "e-mail" (PyVal.vstr "w@x.com") rfl
      (by intro k' hk'
          simp only [List.mem_cons, List.not_mem_nil, or_false] at hk'
          rcases hk' with rfl | rfl <;> rfl)
      rfl
  · exact C6_extraction_first_present.2.1 []
      (by intro k hk
          simp only [emailFieldKeys, List.mem_cons, List.not_mem_nil, or_false] at hk
          rcases hk with rfl | rfl | rfl | rfl | rfl <;> rfl)
      (by intro k hk
          simp only [emailTopKeys, List.mem_cons, List.not_mem_nil, or_false] at hk
          rcases hk with rfl | rfl | rfl <;> rfl)
  · exact C6_extraction_first_present.2.2.1 fullNameWitnessInput ["name", "Name"]
      ["Full Name", "NAME"] "full_name" (PyVal.vstr "Zed") rfl
      (by intro k' hk'
          simp only [List.mem_cons, List.not_mem_nil, or_false] at hk'
          rcases hk' with rfl | rfl <;> rfl)
      rfl
  · have h := C6_extraction_first_present.2.2.2.1 firstLastWitnessInput
      (by intro k hk
          simp only [nameFieldKeys, List.mem_cons, List.not_mem_nil, or_false] at hk
          rcases hk with rfl | rfl | rfl | rfl | rfl <;> rfl)
      rfl rfl
    exact h.trans rfl
  · exact C6_extraction_first_present.2.2.2.2 []
      (by intro k hk
          simp only [nameFieldKeys, List.mem_cons, List.not_mem_nil, or_false] at hk
          rcases hk with rfl | rfl | rfl | rfl | rfl <;> rfl)
      rfl
      (by intro k hk
          simp only [nameTopKeys, List.mem_cons, List.not_mem_nil, or_false] at hk
          rcases hk with rfl | rfl | rfl <;> rfl)

/-- C10: when the field map holds a last-name key but no first-name key and
no single-name candidate key, `_extract_name` ignores the last name: the
result is the first top-level `name`/`submitter_name`/`user_name` value when
one exists and null otherwise. -/
theorem C10_lone_last_name (submission : List (String × PyVal))
    (_hlast : getItem (submissionFields submission) "last_name" ≠ none ∨
              getItem (submissionFields submission) "Last Name" ≠ none)
    (hsingle : ∀ k ∈ nameFieldKeys, getItem (submissionFields submission) k = none)
    (hfirst : getItem (submissionFields submission) "first_name" = none)
    (hFirstCap : getItem (submissionFields submission) "First Name" = none) :
    extractName submission = (firstPresent submission nameTopKeys).getD PyVal.vnone := by
  have h1 : firstPresent (submissionFields submission) nameFieldKeys = none :=
    List.findSome?_eq_none_iff.mpr hsingle
  have hf : dictGet (submissionFields submission) "first_name" .vnone = .vnone := by
    simp [dictGet, hfirst]
  have hF : dictGet (submissionFields submission) "First Name" .vnone = .vnone := by
    simp [dictGet, hFirstCap]
  simp only [extractName, h1, hf, hF, pyOr, PyVal.truthy, if_false]
  cases firstPresent submission nameTopKeys <;> rfl

/-- Input exercising C10: a lone `last_name` field and nothing else. -/
def loneLastNameInput : List (String × PyVal) :=
  [("fields", .vdict [("last_name", .vstr "Doe")])]

/-- Witness for C10 at a concrete submission: the lone last name is ignored
and the extracted name is null. -/
theorem C10_lone_last_name_witness :
    extractName loneLastNameInput = PyVal.vnone := by
  have h := C10_lone_last_name loneLastNameInput
    (Or.inl (fun h => Option.noConfusion h))
    (by intro k hk
        simp only [nameFieldKeys, List.mem_cons, List.not_mem_nil, or_false] at hk
        rcases hk with rfl | rfl | rfl | rfl | rfl <;> rfl)
    rfl rfl
  simpa using h

/-- Rows matching the upsert key never survive in the kept part of an
`INSERT OR REPLACE`. -/
theorem filter_keep_key_nil (l : List SiteRow) (key : Option String) (hk : key.isSome) :
    ((l.filter (fun r => !(r.site_name.isSome && r.site_name == key))).filter
        (fun r => r.site_name == key)) = [] := by
  apply List.filter_eq_nil_iff.mpr
  intro r hr
  rw [List.mem_filter] at hr
  obtain ⟨-, hpred⟩ := hr
  simp only [Bool.not_eq_true', Bool.and_eq_false_iff] at hpred
  intro hmatch
  rcases hpred with hpred | hpred
  · have : r.site_name = key := eq_of_beq hmatch
    rw [this] at hpred
    rw [hpred] at hk
    exact Bool.noConfusion hk
  · rw [hmatch] at hpred
    exact Bool.noConfusion hpred

/-- C8: upserting the same Site input twice yields exactly one stored row
for that site identifier, and its columns other than `last_updated` are
those of a single upsert. -/
theorem C8_idempotent_upsert (db : DBState) (i : SiteInput) (t1 t2 : Nat)
    (h : i.site_name.isSome) :
    (((insertSite (insertSite db i t1) i t2).sites.filter
        (fun r => r.site_name == i.site_name)).length = 1) ∧
    (((insertSite (insertSite db i t1) i t2).sites.filter
        (fun r => r.site_name == i.site_name)).map (fun r => { r with last_updated := 0 }) =
      ((insertSite db i t1).sites.filter
        (fun r => r.site_name == i.site_name)).map (fun r => { r with last_updated := 0 })) := by
  have hrow : ∀ t : Nat, ((siteRowOf i t).site_name == i.site_name) = true := by
    intro t
    simp [siteRowOf]
  have hone : ∀ (l : List SiteRow) (t : Nat),
      ((l.filter (fun r => !(r.site_name.isSome && r.site_name == i.site_name))
          ++ [siteRowOf i t]).filter (fun r => r.site_name == i.site_name))
        = [siteRowOf i t] := by
    intro l t
    rw [List.filter_append, filter_keep_key_nil l i.site_name h]
    simp [hrow t]
  constructor
  · show (((insertSite db i t1).sites.filter
        (fun r => !(r.site_name.isSome && r.site_name == i.site_name))
        ++ [siteRowOf i t2]).filter (fun r => r.site_name == i.site_name)).length = 1
    rw [hone]
    rfl
  · show (((insertSite db i t1).sites.filter
        (fun r => !(r.site_name.isSome && r.site_name == i.site_name))
        ++ [siteRowOf i t2]).filter (fun r => r.site_name == i.site_name)).map
          (fun r => { r with last_updated := 0 }) =
      ((db.sites.filter (fun r => !(r.site_name.isSome && r.site_name == i.site_name))
        ++ [siteRowOf i t1]).filter (fun r => r.site_name == i.site_name)).map
          (fun r => { r with last_updated := 0 })
    rw [hone, hone]
    rfl

/-- Witness for C8: upserting the `"acme"` site twice at times 5 and 9. -/
theorem C8_idempotent_upsert_witness :
    (((insertSite (insertSite {} { site_name := some "acme" } 5) { site_name := some "acme" } 9).sites.filter
        (fun r => r.site_name == some "acme")).length = 1) ∧
    (((insertSite (insertSite {} { site_name := some "acme" } 5) { site_name := some "acme" } 9).sites.filter
        (fun r => r.site_name == some "acme")).map (fun r => { r with last_updated := 0 }) =
      ((insertSite ({} : DBState) { site_name := some "acme" } 5).sites.filter
        (fun r => r.site_name == some "acme")).map (fun r => { r with last_updated := 0 })) :=
  C8_idempotent_upsert {} { site_name := some "acme" } 5 9 rfl

/-- C7: the undelivered-records queries (`unprocessed_only=True`, no site
filter) return no delivered record and every undelivered one, for both the
form-submissions table and the orders table, whatever the store state. -/
theorem C7_undelivered_only :
    (∀ (db : DBState) (r : FormSubRow),
      (r ∈ getFormSubmissions db none true → r.webhook_sent = false) ∧
      (r ∈ db.form_submissions → r.webhook_sent = false →
        r ∈ getFormSubmissions db none true)) ∧
    (∀ (db : DBState) (r : OrderRow),
      (r ∈ getEcommerceOrders db none true → r.webhook_sent = false) ∧
      (r ∈ db.ecommerce_orders → r.webhook_sent = false →
        r ∈ getEcommerceOrders db none true)) := by
  constructor
  · intro db r
    constructor
    · intro hr
      simp only [getFormSubmissions, mem_sortRows, if_true, List.mem_filter] at hr
      simpa using hr.2
    · intro hmem hflag
      simp only [getFormSubmissions, mem_sortRows, if_true, List.mem_filter]
      exact ⟨hmem, by simp [hflag]⟩
  · intro db r
    constructor
    · intro hr
      simp only [getEcommerceOrders, mem_sortRows, if_true, List.mem_filter] at hr
      simpa using hr.2
    · intro hmem hflag
      simp only [getEcommerceOrders, mem_sortRows, if_true, List.mem_filter]
      exact ⟨hmem, by simp [hflag]⟩

/-- A store with one delivered and one undelivered form submission, and one
delivered and one undelivered order. -/
def mixedDeliveryDB : DBState :=
  markWebhookSent
    (markWebhookSent
      (insertEcommerceOrder
        (insertEcommerceOrder
          (insertFormSubmission
            (insertFormSubmission {} { form_id := some "f1" } 0)
            { form_id := some "f2" } 1)
          { order_id := some "o1" } 2)
        { order_id := some "o2" } 3)
      "form_submissions" 1)
    "ecommerce_orders" 1

/-- The undelivered form submission stored in `mixedDeliveryDB`. -/
def undeliveredFormRow : FormSubRow :=
  { id := 2, site_name := none, form_id := some "f2", form_title := none,
    submission_date := none, form_data := jsonDumps (.vdict []),
    submitter_email := none, submitter_name := none,
    is_processed := false, webhook_sent := false, last_updated := 1 }

/-- The undelivered order stored in `mixedDeliveryDB`. -/
def undeliveredOrderRow : OrderRow :=
  { id := 2, site_name := none, order_id := some "o2", order_number := none,
    order_date := none, customer_name := none, customer_email := none,
    total_amount := none, currency := none, status := none,
    items := jsonDumps (.varr []), shipping_address := jsonDumps (.vdict []),
    billing_address := jsonDumps (.vdict []),
    is_processed := false, webhook_sent := false, last_updated := 3 }

/-- Witness for C7: in `mixedDeliveryDB` the undelivered form submission and
the undelivered order are returned by the respective queries. -/
theorem C7_undelivered_only_witness :
    undeliveredFormRow ∈ getFormSubmissions mixedDeliveryDB none true ∧
    undeliveredOrderRow ∈ getEcommerceOrders mixedDeliveryDB none true :=
  ⟨(C7_undelivered_only.1 mixedDeliveryDB undeliveredFormRow).2 (by decide) (by decide),
   (C7_undelivered_only.2 mixedDeliveryDB undeliveredOrderRow).2 (by decide) (by decide)⟩

/-- Order input used by the C1 counterexample. -/
def orderCexInput : OrderInput := { site_name := some "acme", order_id := some "o1" }

/-- State after upserting order `"o1"`. -/
def dbOrder1 : DBState := insertEcommerceOrder {} orderCexInput 0

/-- State after marking order `"o1"` delivered. -/
def dbOrder2 : DBState := markWebhookSent dbOrder1 "ecommerce_orders" 1

/-- State after re-upserting the identical order `"o1"`. -/
def dbOrder3 : DBState := insertEcommerceOrder dbOrder2 orderCexInput 1

/-- C1 counterexample: order `"o1"` has `webhook_sent = true` after
delivery, and a subsequent upsert of the same order identifier (a store
operation) leaves the record with `webhook_sent = false` — `INSERT OR
REPLACE` omits the flag column, so the replacement row takes the default. -/
theorem C1_counterexample :
    (∃ r ∈ dbOrder2.ecommerce_orders, r.order_id = some "o1" ∧ r.webhook_sent = true) ∧
    (∀ r ∈ dbOrder3.ecommerce_orders, r.order_id = some "o1" → r.webhook_sent = false) := by
  decide

/-- C1 (amended): the delivered flag is monotone for FormSubmission rows
under every store operation, and for EcommerceOrder rows under every store
operation except an `insert_ecommerce_order` carrying the delivered row's
own (non-NULL) order identifier: that upsert replaces the row and resets its
flag; an order insert with a different or NULL identifier preserves it. -/
theorem C1_amended_monotonicity :
    (∀ (db : DBState) (op : StoreOp) (r : FormSubRow),
        r ∈ db.form_submissions → r.webhook_sent = true →
        ∃ r' ∈ (applyOp db op).form_submissions, r'.id = r.id ∧ r'.webhook_sent = true) ∧
    (∀ (db : DBState) (op : StoreOp) (r : OrderRow),
        r ∈ db.ecommerce_orders → r.webhook_sent = true →
        (∀ i now, op = StoreOp.opInsertEcommerceOrder i now →
          ¬(r.order_id.isSome = true ∧ r.order_id = i.order_id)) →
        ∃ r' ∈ (applyOp db op).ecommerce_orders, r'.id = r.id ∧ r'.webhook_sent = true) := by
  constructor
  · intro db op r hmem hflag
    cases op with
    | opInsertSite i now =>
      exact ⟨r, hmem, rfl, hflag⟩
    | opInsertFormSubmission i now =>
      exact ⟨r, List.mem_append_left _ hmem, rfl, hflag⟩
    | opInsertEcommerceOrder i now =>
      exact ⟨r, hmem, rfl, hflag⟩
    | opInsertProduct i now =>
      exact ⟨r, hmem, rfl, hflag⟩
    | opMarkWebhookSent table rid =>
      show ∃ r' ∈ (markWebhookSent db table rid).form_submissions,
        r'.id = r.id ∧ r'.webhook_sent = true
      unfold markWebhookSent
      split
      · refine ⟨if r.id = rid then { r with webhook_sent := true } else r,
          List.mem_map_of_mem _ hmem, ?_⟩
        split <;> simp [hflag]
      · split
        · exact ⟨r, hmem, rfl, hflag⟩
        · exact ⟨r, hmem, rfl, hflag⟩
    | opLogWebhook e u p c b s now =>
      exact ⟨r, hmem, rfl, hflag⟩
  · intro db op r hmem hflag horder
    cases op with
    | opInsertSite i now =>
      exact ⟨r, hmem, rfl, hflag⟩
    | opInsertFormSubmission i now =>
      exact ⟨r, hmem, rfl, hflag⟩
    | opInsertEcommerceOrder i now =>
      have hno := horder i now rfl
      refine ⟨r, List.mem_append_left _ (List.mem_filter.mpr ⟨hmem, ?_⟩), rfl, hflag⟩
      by_cases h1 : r.order_id.isSome = true
      · by_cases h2 : r.order_id = i.order_id
        · exact absurd ⟨h1, h2⟩ hno
        · simp [beq_eq_false_iff_ne.mpr h2]
      · rw [Bool.not_eq_true] at h1
        simp [h1]
    | opInsertProduct i now =>
      exact ⟨r, hmem, rfl, hflag⟩
    | opMarkWebhookSent table rid =>
      show ∃ r' ∈ (markWebhookSent db table rid).ecommerce_orders,
        r'.id = r.id ∧ r'.webhook_sent = true
      unfold markWebhookSent
      split
      · exact ⟨r, hmem, rfl, hflag⟩
      · split
        · refine ⟨if r.id = rid then { r with webhook_sent := true } else r,
            List.mem_map_of_mem _ hmem, ?_⟩
          split <;> simp [hflag]
        · exact ⟨r, hmem, rfl, hflag⟩
    | opLogWebhook e u p c b s now =>
      exact ⟨r, hmem, rfl, hflag⟩

/-- The delivered form row of `dbOrder2`'s counterpart store used by the C1
witness: a store with one delivered form submission and one delivered
order. -/
def deliveredBothDB : DBState :=
  markWebhookSent
    (markWebhookSent
      (insertEcommerceOrder (insertFormSubmission {} { form_id := some "f1" } 0)
        { order_id := some "o1" } 1)
      "form_submissions" 1)
    "ecommerce_orders" 1

/-- Witness for the amended C1: inserting a site (form case), marking an
unrelated table (order case), and upserting an order with a *different*
order identifier all preserve the delivered flags of `deliveredBothDB`. -/
theorem C1_amended_monotonicity_witness :
    (∃ r' ∈ (applyOp deliveredBothDB (.opInsertSite { site_name := some "s" } 7)).form_submissions,
       r'.id = 1 ∧ r'.webhook_sent = true) ∧
    (∃ r' ∈ (applyOp deliveredBothDB (.opMarkWebhookSent "x" 9)).ecommerce_orders,
       r'.id = 1 ∧ r'.webhook_sent = true) ∧
    (∃ r' ∈ (applyOp deliveredBothDB
        (.opInsertEcommerceOrder { order_id := some "o9" } 5)).ecommerce_orders,
       r'.id = 1 ∧ r'.webhook_sent = true) := by
  refine ⟨?_, ?_, ?_⟩
  · obtain ⟨r, hmem, hr⟩ : ∃ r ∈ deliveredBothDB.form_submissions,
        r.id = 1 ∧ r.webhook_sent = true := by decide
    obtain ⟨r', hmem', hid, hfl⟩ :=
      C1_amended_monotonicity.1 deliveredBothDB (.opInsertSite { site_name := some "s" } 7) r hmem hr.2
    exact ⟨r', hmem', hid.trans hr.1, hfl⟩
  · obtain ⟨r, hmem, hr⟩ : ∃ r ∈ deliveredBothDB.ecommerce_orders,
        r.id = 1 ∧ r.webhook_sent = true := by decide
    obtain ⟨r', hmem', hid, hfl⟩ :=
      C1_amended_monotonicity.2 deliveredBothDB (.opMarkWebhookSent "x" 9) r
        hmem hr.2 (fun i now h => StoreOp.noConfusion h)
    exact ⟨r', hmem', hid.trans hr.1, hfl⟩
  · obtain ⟨r, hmem, hr⟩ : ∃ r ∈ deliveredBothDB.ecommerce_orders,
        r.id = 1 ∧ r.webhook_sent = true ∧ r.order_id = some "o1" := by decide
    obtain ⟨r', hmem', hid, hfl⟩ :=
      C1_amended_monotonicity.2 deliveredBothDB
        (.opInsertEcommerceOrder { order_id := some "o9" } 5) r hmem hr.2.1
        (by intro i now h hcontra
            injection h with hi hn
            obtain ⟨-, heq⟩ := hcontra
            rw [hr.2.2] at heq
            rw [← hi] at heq
            exact absurd heq (by decide))
    exact ⟨r', hmem', hid.trans hr.1, hfl⟩

/-- A webhook configuration with one configured destination. -/
def hookConfig : List (String × String) :=
  [("new_form_submission", "https://example.com/hook")]

/-- C4 counterexample: HTTP 203 is in the 2xx range, yet `send_webhook`
reports failure — its success test is membership in `[200, 201, 202, 204]`,
not the whole 2xx range. -/
theorem C4_counterexample :
    (sendWebhook hookConfig "new_form_submission" (.vdict [])
        (.resp 203 "Non-Authoritative Information") 0 {}).1 = false ∧
    200 ≤ 203 ∧ 203 < 300 := by
  refine ⟨rfl, by decide, by decide⟩

/-- C4 (amended): on a configured destination the delivery result is success
iff the HTTP response status code is one of 200, 201, 202, 204; every other
outcome (other codes — including other 2xx codes — timeout, transport
error) is a failure. -/
theorem C4_amended_success_codes (webhooks : List (String × String)) (event_type : String)
    (payload : PyVal) (outcome : HttpOutcome) (now : Nat) (db : DBState) (url : String)
    (hurl : lookupConfig webhooks event_type = some url) (hne : url ≠ "") :
    (sendWebhook webhooks event_type payload outcome now db).1 = true ↔
      ∃ code text, outcome = .resp code text ∧
        (code = 200 ∨ code = 201 ∨ code = 202 ∨ code = 204) := by
  unfold sendWebhook
  rw [hurl]
  simp only [if_neg hne]
  cases outcome with
  | resp code text =>
    constructor
    · intro hc
      simp only [List.contains] at hc
      exact ⟨code, text, rfl, by simpa using hc⟩
    · rintro ⟨c, t, heq, hc⟩
      injection heq with h1 h2
      subst h1
      show [200, 201, 202, 204].contains code = true
      simp only [List.contains]
      simpa using hc
  | timeout =>
    simp
  | transportError msg =>
    simp

/-- Witness for the amended C4: a 204 response on the configured destination
is reported as success. -/
theorem C4_amended_success_codes_witness :
    (sendWebhook hookConfig "new_form_submission" (.vdict []) (.resp 204 "") 0 {}).1 = true :=
  (C4_amended_success_codes hookConfig "new_form_submission" (.vdict [])
      (.resp 204 "") 0 {} "https://example.com/hook" rfl (by decide)).mpr
    ⟨204, "", rfl, by decide⟩

/-- Evaluation of `send_webhook` when the POST yields an HTTP response. -/
theorem sendWebhook_resp (webhooks : List (String × String)) (event_type : String)
    (payload : PyVal) (code : Nat) (text : String) (now : Nat) (db : DBState)
    (url : String) (hurl : lookupConfig webhooks event_type = some url) (hne : url ≠ "") :
    sendWebhook webhooks event_type payload (.resp code text) now db =
      ([200, 201, 202, 204].contains code,
       logWebhook db event_type url (fullPayload event_type now payload) code
         (text.take 500) ([200, 201, 202, 204].contains code) now) := by
  unfold sendWebhook
  rw [hurl]
  simp only [if_neg hne]

/-- Evaluation of `send_webhook` on a request timeout. -/
theorem sendWebhook_timeout (webhooks : List (String × String)) (event_type : String)
    (payload : PyVal) (now : Nat) (db : DBState)
    (url : String) (hurl : lookupConfig webhooks event_type = some url) (hne : url ≠ "") :
    sendWebhook webhooks event_type payload .timeout now db =
      (false,
       logWebhook db event_type url (fullPayload event_type now payload) 0
         "Request timeout" false now) := by
  unfold sendWebhook
  rw [hurl]
  simp only [if_neg hne]

/-- Evaluation of `send_webhook` on a transport-level error. -/
theorem sendWebhook_transport (webhooks : List (String × String)) (event_type : String)
    (payload : PyVal) (msg : String) (now : Nat) (db : DBState)
    (url : String) (hurl : lookupConfig webhooks event_type = some url) (hne : url ≠ "") :
    sendWebhook webhooks event_type payload (.transportError msg) now db =
      (false,
       logWebhook db event_type url (fullPayload event_type now payload) 0 msg false now) := by
  unfold sendWebhook
  rw [hurl]
  simp only [if_neg hne]

/-- C9: every delivery attempt that reaches a configured destination appends
exactly one delivery-log entry before returning; the entry carries the
actual HTTP status code (or `0` for timeouts and transport errors), and when
an HTTP response was received its logged body is the response text truncated
to at most 500 characters. -/
theorem C9_delivery_logging (webhooks : List (String × String)) (event_type : String)
    (payload : PyVal) (outcome : HttpOutcome) (now : Nat) (db : DBState) (url : String)
    (hurl : lookupConfig webhooks event_type = some url) (hne : url ≠ "") :
    ∃ entry,
      (sendWebhook webhooks event_type payload outcome now db).2.webhook_log
        = db.webhook_log ++ [entry] ∧
      entry.response_code = (match outcome with
        | .resp code _ => code
        | .timeout => 0
        | .transportError _ => 0) ∧
      (∀ code text, outcome = .resp code text →
        entry.response_body = text.take 500 ∧ entry.response_body.length ≤ 500) := by
  cases outcome with
  | resp code text =>
    rw [sendWebhook_resp webhooks event_type payload code text now db url hurl hne]
    refine ⟨{ id := db.next_log_id, event_type := event_type, webhook_url := url,
              payload := jsonDumps (fullPayload event_type now payload),
              response_code := code, response_body := text.take 500,
              success := [200, 201, 202, 204].contains code, timestamp := now },
            ?_, ?_, ?_⟩
    · simp [logWebhook]
    · simp
    · intro c t h
      injection h with h1 h2
      subst h1
      subst h2
      refine ⟨by simp, ?_⟩
      have htake : (text.take 500).length ≤ 500 := by
        rw [String.take_eq]
        exact List.length_take_le 500 text.data
      simpa using htake
  | timeout =>
    rw [sendWebhook_timeout webhooks event_type payload now db url hurl hne]
    exact ⟨_, rfl, rfl, fun c t h => HttpOutcome.noConfusion h⟩
  | transportError msg =>
    rw [sendWebhook_transport webhooks event_type payload msg now db url hurl hne]
    exact ⟨_, rfl, rfl, fun c t h => HttpOutcome.noConfusion h⟩

/-- Witness for C9: a 200 response is logged as exactly one new entry with
code 200 and the truncated body. -/
theorem C9_delivery_logging_witness :
    ∃ entry,
      (sendWebhook hookConfig "new_form_submission" (.vdict [])
          (.resp 200 "okbody") 4 {}).2.webhook_log
        = ({} : DBState).webhook_log ++ [entry] ∧
      entry.response_code = 200 ∧
      (∀ code text, HttpOutcome.resp 200 "okbody" = HttpOutcome.resp code text →
        entry.response_body = text.take 500 ∧ entry.response_body.length ≤ 500) :=
  C9_delivery_logging hookConfig "new_form_submission" (.vdict [])
    (.resp 200 "okbody") 4 {} "https://example.com/hook" rfl (by decide)

/-! ## Audit lemmas -/

/-- `find?` skips a prefix on which the predicate is everywhere false. -/
theorem find?_append_all_false {p : α → Bool} {l₁ l₂ : List α}
    (h : ∀ a ∈ l₁, p a = false) : (l₁ ++ l₂).find? p = l₂.find? p := by
  induction l₁ with
  | nil => rfl
  | cons a as ih =>
    have ha := h a (List.mem_cons_self a as)
    have has := fun x hx => h x (List.mem_cons_of_mem a hx)
    simp [List.find?, ha, ih has]

/-- An id-guarded row update over `old ++ [row]` touches only `row` when the
old rows all have a different id. -/
theorem map_ite_id_append {l : List AuditRecord} {nid : Nat}
    (f : AuditRecord → AuditRecord) (hl : ∀ r ∈ l, r.id ≠ nid)
    (row : AuditRecord) (hrow : row.id = nid) :
    (l ++ [row]).map (fun r => if r.id = nid then f r else r) = l ++ [f row] := by
  rw [List.map_append]
  congr 1
  · conv_rhs => rw [← List.map_id l]
    apply List.map_congr_left
    intro r hr
    simp [hl r hr]
  · simp [hrow]

/-- Well-formedness the SQLite autoincrement column maintains: every stored
audit id is below the next row id. -/
def AuditWF (db : AuditDB) : Prop := ∀ r ∈ db.audits, r.id < db.next_audit_id

/-- The row `_create_audit_record` inserts. -/
def runningRowOf (db : AuditDB) (domain : String) : AuditRecord :=
  { id := db.next_audit_id, domain := domain, status := "running",
    started_at := db.clock }

/-- The audit row a successful `run_audit` leaves behind. -/
def completedRowOf (db : AuditDB) (domain : String) (o : AuditOracle) : AuditRecord :=
  { id := db.next_audit_id, domain := domain, status := "completed",
    started_at := db.clock, completed_at := some (db.clock + 1),
    crawl_data := some (fetchDataforseoData o.dfs),
    ga4_data := o.ga4.map fetchGa4Data,
    gsc_data := o.gsc.map fetchGscData,
    insights := some (analyzeData (fetchDataforseoData o.dfs)
      (o.ga4.map fetchGa4Data) (o.gsc.map fetchGscData)) }

/-- The audit row a failing `run_audit` leaves behind. -/
def failedRowOf (db : AuditDB) (domain : String) (e : String) : AuditRecord :=
  { id := db.next_audit_id, domain := domain, status := "failed",
    error_message := some e, started_at := db.clock,
    completed_at := some (db.clock + 1) }

/-- `_update_audit_status` on `"completed"` takes the completion branch. -/
theorem updateAuditStatus_completed (db : AuditDB) (aid : Nat) (e : Option String) :
    updateAuditStatus db aid "completed" e =
      { db with audits := db.audits.map (fun r => if r.id = aid then { r with status := "completed", completed_at := some db.clock } else r), clock := db.clock + 1 } := by
  unfold updateAuditStatus
  split
  · rfl
  · next h => exact absurd rfl h

/-- `_update_audit_status` on `"failed"` takes the error branch. -/
theorem updateAuditStatus_failed (db : AuditDB) (aid : Nat) (e : Option String) :
    updateAuditStatus db aid "failed" e =
      { db with audits := db.audits.map (fun r => if r.id = aid then { r with status := "failed", error_message := e, completed_at := some db.clock } else r), clock := db.clock + 1 } := by
  unfold updateAuditStatus
  split
  · next h => exact absurd h (by decide)
  · rfl

/-- Evaluation of `run_audit` when the persist step succeeds. -/
theorem runAudit_ok_eval (db : AuditDB) (domain : String) (o : AuditOracle)
    (hwf : AuditWF db) (hok : o.persist = .ok ()) :
    runAudit db domain o =
      (.ok { audit_id := db.next_audit_id, domain := domain, status := "completed",
             insights := analyzeData (fetchDataforseoData o.dfs)
               (o.ga4.map fetchGa4Data) (o.gsc.map fetchGscData),
             timestamp := db.clock + 2 },
       { audits := db.audits ++ [completedRowOf db domain o],
         next_audit_id := db.next_audit_id + 1,
         clock := db.clock + 3 }) := by
  have hne : ∀ r ∈ db.audits, r.id ≠ db.next_audit_id :=
    fun r hr => Nat.ne_of_lt (hwf r hr)
  simp only [runAudit, createAuditRecord, saveAuditResults, hok,
    updateAuditStatus_completed]
  rw [map_ite_id_append _ hne _ rfl]
  rw [map_ite_id_append _ hne _ rfl]
  rfl

/-- Evaluation of `run_audit` when the persist step raises. -/
theorem runAudit_error_eval (db : AuditDB) (domain : String) (o : AuditOracle)
    (e : String) (hwf : AuditWF db) (herr : o.persist = .error e) :
    runAudit db domain o =
      (.error e,
       { audits := db.audits ++ [failedRowOf db domain e],
         next_audit_id := db.next_audit_id + 1,
         clock := db.clock + 2 }) := by
  have hne : ∀ r ∈ db.audits, r.id ≠ db.next_audit_id :=
    fun r hr => Nat.ne_of_lt (hwf r hr)
  simp only [runAudit, createAuditRecord, saveAuditResults, herr,
    updateAuditStatus_failed]
  rw [map_ite_id_append _ hne _ rfl]
  rfl

/-- C3: every `run_audit` invocation first persists a `"running"` record
with `started_at` set (the create step precedes every fetch in the body); a
normal return leaves that record `"completed"` with `completed_at` set; an
uncaught exception leaves it `"failed"` with the error message and
`completed_at` set and is re-raised to the caller; and records already in a
terminal status survive the run unchanged — no operation returns them to
`"running"`. -/
theorem C3_audit_lifecycle (db : AuditDB) (domain : String) (o : AuditOracle)
    (hwf : AuditWF db) :
    (findAudit (createAuditRecord db domain).2 (createAuditRecord db domain).1
       = some (runningRowOf db domain)) ∧
    (∀ v, (runAudit db domain o).1 = .ok v →
       v.status = "completed" ∧
       ∃ a, findAudit (runAudit db domain o).2 v.audit_id = some a ∧
         a.status = "completed" ∧ a.completed_at.isSome = true ∧
         a.started_at = db.clock) ∧
    (∀ e, (runAudit db domain o).1 = .error e →
       ∃ a, findAudit (runAudit db domain o).2 db.next_audit_id = some a ∧
         a.status = "failed" ∧ a.error_message = some e ∧
         a.completed_at.isSome = true) ∧
    (∀ r ∈ db.audits, r.status = "completed" ∨ r.status = "failed" →
       r ∈ (runAudit db domain o).2.audits) := by
  have hfalse : ∀ r ∈ db.audits, (r.id == db.next_audit_id) = false := by
    intro r hr
    exact beq_eq_false_iff_ne.mpr (Nat.ne_of_lt (hwf r hr))
  refine ⟨?_, ?_, ?_, ?_⟩
  · show (db.audits ++ [runningRowOf db domain]).find?
        (fun r => r.id == db.next_audit_id) = some (runningRowOf db domain)
    rw [find?_append_all_false hfalse]
    simp [List.find?, runningRowOf]
  · intro v hv
    cases hp : o.persist with
    | ok u =>
      cases u
      rw [runAudit_ok_eval db domain o hwf hp] at hv ⊢
      injection hv with hv
      subst hv
      refine ⟨rfl, completedRowOf db domain o, ?_, rfl, rfl, rfl⟩
      show (db.audits ++ [completedRowOf db domain o]).find?
          (fun r => r.id == db.next_audit_id) = some (completedRowOf db domain o)
      rw [find?_append_all_false hfalse]
      simp [List.find?, completedRowOf]
    | error e =>
      rw [runAudit_error_eval db domain o e hwf hp] at hv
      exact Except.noConfusion hv
  · intro e he
    cases hp : o.persist with
    | ok u =>
      cases u
      rw [runAudit_ok_eval db domain o hwf hp] at he
      exact Except.noConfusion he
    | error e' =>
      rw [runAudit_error_eval db domain o e' hwf hp] at he ⊢
      injection he with he
      rw [← he]
      refine ⟨failedRowOf db domain e', ?_, rfl, rfl, rfl⟩
      show (db.audits ++ [failedRowOf db domain e']).find?
          (fun r => r.id == db.next_audit_id) = some (failedRowOf db domain e')
      rw [find?_append_all_false hfalse]
      simp [List.find?, failedRowOf]
  · intro r hr _hterm
    cases hp : o.persist with
    | ok u =>
      cases u
      rw [runAudit_ok_eval db domain o hwf hp]
      exact List.mem_append_left _ hr
    | error e =>
      rw [runAudit_error_eval db domain o e hwf hp]
      exact List.mem_append_left _ hr

/-- An already-completed audit stored before the run used by the C3
witness. -/
def priorAudit : AuditRecord :=
  { id := 1, domain := "old.com", status := "completed", started_at := 0 }

/-- A store holding one completed audit. -/
def auditDB0 : AuditDB := { audits := [priorAudit], next_audit_id := 2, clock := 5 }

/-- An oracle on which every provider call and the persist step succeed. -/
def okOracle : AuditOracle :=
  { dfs := { onPageSummary := .ok "cp", organicCompetitors := .ok "op",
             backlinksSummary := .ok "bp", backlinksReferringDomains := .ok "rp",
             rankedKeywords := .ok "kp", domainMetrics := .ok "dp" } }

theorem auditDB0_wf : AuditWF auditDB0 := by
  intro r hr
  rw [show auditDB0.audits = [priorAudit] from rfl, List.mem_singleton] at hr
  subst hr
  decide

/-- Witness for C3: on `auditDB0` a fully successful run creates the running
record, finishes it as completed, and leaves the prior completed audit in
place. -/
theorem C3_audit_lifecycle_witness :
    (findAudit (createAuditRecord auditDB0 "example.com").2
        (createAuditRecord auditDB0 "example.com").1
      = some (runningRowOf auditDB0 "example.com")) ∧
    (∃ a, findAudit (runAudit auditDB0 "example.com" okOracle).2 2 = some a ∧
       a.status = "completed" ∧ a.completed_at.isSome = true) ∧
    priorAudit ∈ (runAudit auditDB0 "example.com" okOracle).2.audits := by
  have h := C3_audit_lifecycle auditDB0 "example.com" okOracle auditDB0_wf
  refine ⟨h.1, ?_, h.2.2.2 priorAudit (by decide) (Or.inl rfl)⟩
  obtain ⟨-, a, ha, h2, h3, -⟩ := h.2.1 _ rfl
  exact ⟨a, ha, h2, h3⟩

/-- C2: when the backlinks source raises and the crawl, competitors,
keywords and domain-metrics sources as well as the persist step succeed,
`run_audit` returns normally with status `"completed"`, the stored
raw-payload map carries a populated `backlinks_error` key, and the crawl,
competitors and keywords insight summary sections are still populated. -/
theorem C2_backlinks_partial_failure (db : AuditDB) (domain msg : String)
    (o : AuditOracle) (hwf : AuditWF db)
    (hbl : o.dfs.backlinksSummary = .error msg)
    (hcr : o.dfs.onPageSummary.isOk = true)
    (hco : o.dfs.organicCompetitors.isOk = true)
    (hkw : o.dfs.rankedKeywords.isOk = true)
    (hdm : o.dfs.domainMetrics.isOk = true)
    (hok : o.persist = .ok ()) :
    ∃ v, (runAudit db domain o).1 = .ok v ∧ v.status = "completed" ∧
      (fetchDataforseoData o.dfs).backlinks_error = some msg ∧
      v.insights.summary.crawl.isSome = true ∧
      v.insights.summary.competitors.isSome = true ∧
      v.insights.summary.keywords.isSome = true ∧
      ∃ a, findAudit (runAudit db domain o).2 v.audit_id = some a ∧
        a.status = "completed" ∧
        a.crawl_data = some (fetchDataforseoData o.dfs) := by
  obtain ⟨pc, hpc⟩ : ∃ p, o.dfs.onPageSummary = .ok p := by
    cases h : o.dfs.onPageSummary with
    | ok p => exact ⟨p, rfl⟩
    | error e => rw [h] at hcr; exact Bool.noConfusion hcr
  obtain ⟨po, hpo⟩ : ∃ p, o.dfs.organicCompetitors = .ok p := by
    cases h : o.dfs.organicCompetitors with
    | ok p => exact ⟨p, rfl⟩
    | error e => rw [h] at hco; exact Bool.noConfusion hco
  obtain ⟨pk, hpk⟩ : ∃ p, o.dfs.rankedKeywords = .ok p := by
    cases h : o.dfs.rankedKeywords with
    | ok p => exact ⟨p, rfl⟩
    | error e => rw [h] at hkw; exact Bool.noConfusion hkw
  obtain ⟨pd, hpd⟩ : ∃ p, o.dfs.domainMetrics = .ok p := by
    cases h : o.dfs.domainMetrics with
    | ok p => exact ⟨p, rfl⟩
    | error e => rw [h] at hdm; exact Bool.noConfusion hdm
  have hfd : fetchDataforseoData o.dfs =
      { crawl := some pc, competitors := some po, backlinks_error := some msg,
        keywords := some pk, domain_metrics := some pd } := by
    simp [fetchDataforseoData, hpc, hpo, hbl, hpk, hpd]
  have hfalse : ∀ r ∈ db.audits, (r.id == db.next_audit_id) = false :=
    fun r hr => beq_eq_false_iff_ne.mpr (Nat.ne_of_lt (hwf r hr))
  rw [runAudit_ok_eval db domain o hwf hok]
  refine ⟨_, rfl, rfl, ?_, ?_, ?_, ?_, completedRowOf db domain o, ?_, rfl, ?_⟩
  · rw [hfd]
  · show (analyzeData (fetchDataforseoData o.dfs) (o.ga4.map fetchGa4Data)
      (o.gsc.map fetchGscData)).summary.crawl.isSome = true
    rw [hfd]
    rfl
  · show (analyzeData (fetchDataforseoData o.dfs) (o.ga4.map fetchGa4Data)
      (o.gsc.map fetchGscData)).summary.competitors.isSome = true
    rw [hfd]
    rfl
  · show (analyzeData (fetchDataforseoData o.dfs) (o.ga4.map fetchGa4Data)
      (o.gsc.map fetchGscData)).summary.keywords.isSome = true
    rw [hfd]
    rfl
  · show (db.audits ++ [completedRowOf db domain o]).find?
        (fun r => r.id == db.next_audit_id) = some (completedRowOf db domain o)
    rw [find?_append_all_false hfalse]
    simp [List.find?, completedRowOf]
  · rfl

/-- The oracle of the C2 witness: backlinks down, everything else up. -/
def backlinksDownOracle : AuditOracle :=
  { dfs := { onPageSummary := .ok "cp", organicCompetitors := .ok "op",
             backlinksSummary := .error "backlinks down",
             backlinksReferringDomains := .ok "rp",
             rankedKeywords := .ok "kp", domainMetrics := .ok "dp" } }

/-- Witness for C2 on the empty store and `backlinksDownOracle`. -/
theorem C2_backlinks_partial_failure_witness :
    ∃ v, (runAudit {} "example.com" backlinksDownOracle).1 = .ok v ∧
      v.status = "completed" ∧
      (fetchDataforseoData backlinksDownOracle.dfs).backlinks_error
        = some "backlinks down" ∧
      v.insights.summary.crawl.isSome = true ∧
      v.insights.summary.competitors.isSome = true ∧
      v.insights.summary.keywords.isSome = true ∧
      ∃ a, findAudit (runAudit {} "example.com" backlinksDownOracle).2 v.audit_id
          = some a ∧
        a.status = "completed" ∧
        a.crawl_data = some (fetchDataforseoData backlinksDownOracle.dfs) :=
  C2_backlinks_partial_failure {} "example.com" "backlinks down"
    backlinksDownOracle (fun r hr => absurd hr (List.not_mem_nil r))
    rfl rfl rfl rfl rfl rfl

/-- Concrete oracle refuting C5 as stated: the backlinks summary call
succeeds, the referring-domains call (inside the same try block) fails. -/
def dfsMixed : DfsOracle :=
  { onPageSummary := .ok "c", organicCompetitors := .ok "m",
    backlinksSummary := .ok "b", backlinksReferringDomains := .error "rd down",
    rankedKeywords := .ok "k", domainMetrics := .ok "d" }

/-- C5 counterexample: for the backlinks source the raw-payload map holds
*both* the data key and the error key, not exactly one. -/
theorem C5_counterexample :
    (fetchDataforseoData dfsMixed).backlinks = some "b" ∧
    (fetchDataforseoData dfsMixed).backlinks_error = some "rd down" :=
  ⟨rfl, rfl⟩

/-- C5 (amended): the crawl, competitors, keywords and domain-metrics
sources each contribute exactly one of their data key or their error key;
the backlinks source's data key is present iff its summary call succeeded
and its error key iff either of its two calls failed, so both keys coexist
when the summary call succeeds and the referring-domains call fails; no
source's exception escapes the fetch phase (`fetchDataforseoData` is total
and returns this characterization for every oracle). -/
theorem C5_amended_per_source_keys (o : DfsOracle) :
    ((fetchDataforseoData o).crawl.isSome = o.onPageSummary.isOk ∧
     (fetchDataforseoData o).crawl_error.isSome = !o.onPageSummary.isOk) ∧
    ((fetchDataforseoData o).competitors.isSome = o.organicCompetitors.isOk ∧
     (fetchDataforseoData o).competitors_error.isSome = !o.organicCompetitors.isOk) ∧
    ((fetchDataforseoData o).keywords.isSome = o.rankedKeywords.isOk ∧
     (fetchDataforseoData o).keywords_error.isSome = !o.rankedKeywords.isOk) ∧
    ((fetchDataforseoData o).domain_metrics.isSome = o.domainMetrics.isOk ∧
     (fetchDataforseoData o).domain_metrics_error.isSome = !o.domainMetrics.isOk) ∧
    ((fetchDataforseoData o).backlinks.isSome = o.backlinksSummary.isOk ∧
     (fetchDataforseoData o).referring_domains.isSome
       = (o.backlinksSummary.isOk && o.backlinksReferringDomains.isOk) ∧
     (fetchDataforseoData o).backlinks_error.isSome
       = (!o.backlinksSummary.isOk ||
          (o.backlinksSummary.isOk && !o.backlinksReferringDomains.isOk))) := by
  obtain ⟨a, b, c, d, e, f⟩ := o
  cases a <;> cases b <;> cases c <;> cases d <;> cases e <;> cases f <;>
    simp [fetchDataforseoData, Except.isOk, Except.toBool]

end SitePanda
